import Mathlib

/-!
Verification development for the AI-Powered-Legal-Assistant repository.

Shallow embedding of the core of `app.py` (response resolution, credential
lookup, document analysis) and `document_processor.py` (text extraction and
MIME dispatch).  Python strings are modelled as `List Char`; Python string
methods (`lower`, `strip`, `in`, `endswith`) are given explicit executable
counterparts below.  Python exceptions are modelled with `Except`: a call
into an external library (PyPDF2, python-docx, PIL, google.generativeai,
toml) is an oracle value of type `Except` recorded in the input structure,
since the library's behaviour is outside the program under verification.
All embedded functions are total, which reflects the source's catch-all
`try/except` boundaries.
-/

/-- Python string, as its sequence of characters. -/
abbrev Str := List Char

/-- Coerce a Lean string literal into the embedding's string type. -/
def str (s : String) : Str := s.toList

/-- Whitespace recognised by Python's `str.strip()` (ASCII portion; the
queries and documents handled by the claims are ASCII). -/
def isPySpace (c : Char) : Bool :=
  c = ' ' || c = '\t' || c = '\n' || c = '\x0d' || c = '\x0b' || c = '\x0c'

/-- Python `str.lower()` (ASCII portion, via `Char.toLower`). -/
def pyLower (s : Str) : Str := s.map Char.toLower

/-- Python `str.lstrip()`. -/
def pyStripLeft (s : Str) : Str := s.dropWhile isPySpace

/-- Python `str.rstrip()`. -/
def pyStripRight (s : Str) : Str := (s.reverse.dropWhile isPySpace).reverse

/-- Python `str.strip()`: drop whitespace from both ends (the two one-sided
strips commute; we fix the order right-then-left). -/
def pyStrip (s : Str) : Str := pyStripLeft (pyStripRight s)

/-- Python truthiness of an optional string value: `None` and `""` are
falsy, every non-empty string is truthy. -/
def pyTruthy : Option Str → Bool
  | none => false
  | some s => !s.isEmpty

/-- Python `needle in haystack` on strings: substring containment. -/
def pyIn (needle hay : Str) : Bool := decide (needle <:+: hay)

/-- Python `s.endswith(t)`. -/
def pyEndsWith (t s : Str) : Bool := decide (t <:+ s)

/-! ## document_processor.py -/

/-- An uploaded file at the extractor boundary.  `name` and `type` are the
declared filename and MIME type.  The three `Except` fields are oracles for
the underlying parsing libraries applied to the file's bytes:
`pdfParse` is PyPDF2's result (the list of per-page `extract_text()`
strings, or the exception message raised anywhere in the `try` block),
`docxParse` is python-docx's result (the list of per-paragraph `text`
strings, or the exception message), and `imageOpen` is PIL `Image.open`
(unit on success, since the extracted value is unused, or the exception
message). -/
structure UploadedFile where
  name : Str
  type : Str
  pdfParse : Except Str (List Str)
  docxParse : Except Str (List Str)
  imageOpen : Except Str Unit

/-- `extract_text_from_pdf` (document_processor.py lines 12-21):
accumulate `page.extract_text() + "\n"` over the pages, `strip()` the
result; any exception becomes `"Error extracting PDF: " + str(e)`. -/
def extract_text_from_pdf (file : UploadedFile) : Str :=
  match file.pdfParse with
  | .ok pages => pyStrip (pages.foldl (fun text page => text ++ page ++ str "\n") [])
  | .error e => str "Error extracting PDF: " ++ e

/-- `extract_text_from_docx` (document_processor.py lines 24-33). -/
def extract_text_from_docx (file : UploadedFile) : Str :=
  match file.docxParse with
  | .ok paras => pyStrip (paras.foldl (fun text para => text ++ para ++ str "\n") [])
  | .error e => str "Error extracting DOCX: " ++ e

/-- `extract_text_from_image` (document_processor.py lines 36-43): open the
image, then return the fixed OCR placeholder; any exception becomes
`"Error processing image: " + str(e)`. -/
def extract_text_from_image (file : UploadedFile) : Str :=
  match file.imageOpen with
  | .ok _ => str "Image OCR not yet implemented. Please upload PDF or DOCX files for now."
  | .error e => str "Error processing image: " ++ e

/-- `process_document` (document_processor.py lines 46-60): dispatch on the
lower-cased declared MIME type with filename-extension fallbacks. -/
def process_document (uploaded_file : UploadedFile) : Str :=
  let file_type := pyLower uploaded_file.type
  if pyIn (str "pdf") file_type then
    extract_text_from_pdf uploaded_file
  else if pyIn (str "word") file_type || pyIn (str "document") file_type
      || pyEndsWith (str ".docx") uploaded_file.name then
    extract_text_from_docx uploaded_file
  else if pyIn (str "image") file_type
      || pyEndsWith (str ".png") (pyLower uploaded_file.name)
      || pyEndsWith (str ".jpg") (pyLower uploaded_file.name)
      || pyEndsWith (str ".jpeg") (pyLower uploaded_file.name) then
    extract_text_from_image uploaded_file
  else
    str "Unsupported file type: " ++ file_type

/-! ## app.py: credential resolution -/

/-- Runtime environment of one credential lookup.  `hasSecretsAttr` is
`hasattr(st, 'secrets')`; `secretsGet` is `st.secrets.get("GEMINI_API_KEY")`;
`envGet` is `os.getenv("GEMINI_API_KEY")`; `tomlLoad` is the result of
`toml.load(".streamlit/secrets.toml")` followed by `.get("GEMINI_API_KEY")`
(`error` when `toml.load` or the import raises, which the source catches
with a bare `except: pass`). -/
structure CredEnv where
  hasSecretsAttr : Bool
  secretsGet : Option Str
  envGet : Option Str
  tomlLoad : Except Unit (Option Str)

/-- Credential lookup of the chat flow (app.py lines 108-125): secrets
store, then environment variable, then local TOML file, each later source
consulted only when the accumulated value is still falsy. -/
def resolveApiKeyChat (env : CredEnv) : Option Str :=
  let api_key : Option Str := none
  let api_key := if env.hasSecretsAttr then env.secretsGet else api_key
  let api_key := if pyTruthy api_key then api_key else env.envGet
  let api_key :=
    if pyTruthy api_key then api_key
    else match env.tomlLoad with
      | .ok fromFile => fromFile
      | .error _ => api_key
  api_key

/-- Credential lookup of the document-analysis flow (app.py lines
188-200); the source duplicates the chat flow's logic verbatim. -/
def resolveApiKeyAnalyze (env : CredEnv) : Option Str :=
  let api_key : Option Str := none
  let api_key := if env.hasSecretsAttr then env.secretsGet else api_key
  let api_key := if pyTruthy api_key then api_key else env.envGet
  let api_key :=
    if pyTruthy api_key then api_key
    else match env.tomlLoad with
      | .ok fromFile => fromFile
      | .error _ => api_key
  api_key

/-! ## app.py: pattern store -/

/-- One element of the JSON-loaded pattern list: either a dict whose
`'pattern'`/`'response'` entries may each be present or absent, or a
non-dict value.  (The source reads the fields only after checking both
keys are present; values are strings in the embedding, matching the
`item['pattern'].lower().strip()` access.) -/
inductive PatItem where
  | dict (pattern : Option Str) (response : Option Str)
  | nondict
deriving DecidableEq

/-- The value returned by `load_patterns`: a JSON array, or any non-list
JSON value. -/
inductive PatternsValue where
  | list (items : List PatItem)
  | nonlist
deriving DecidableEq

/-- The `for item in patterns` loop of app.py lines 156-162: skip items
that are not dicts or lack a field; return the first item whose
lower-cased stripped pattern is a substring of the normalized query. -/
def patternLoop : List PatItem → Str → Option Str
  | [], _ => none
  | item :: rest, query =>
    match item with
    | .dict (some p) (some r) =>
      if pyIn (pyStrip (pyLower p)) query then some r else patternLoop rest query
    | _ => patternLoop rest query

/-- Pattern store consultation (app.py lines 154-162), including the
guard `if patterns and isinstance(patterns, list)` (an empty list is falsy
and skips the loop, with the same result as scanning it). -/
def patternScan (patterns : PatternsValue) (query : Str) : Option Str :=
  match patterns with
  | .list items => if items.isEmpty then none else patternLoop items query
  | .nonlist => none

/-! ## app.py: keyword fallback -/

def ipcResponse : Str :=
  str "The Indian Penal Code (IPC) is the main criminal code of India. Please specify which section you\x27d like to know about."

def lawyerResponse : Str :=
  str "For specific legal advice, please consult a qualified lawyer or attorney in your area."

def courtResponse : Str :=
  str "Indian courts include District Courts, High Courts, and the Supreme Court. Each handles different types of cases."

def rightsResponse : Str :=
  str "Indian citizens have fundamental rights under the Constitution including right to equality, freedom, and justice."

def theftResponse : Str :=
  str "Theft, Robbery, and Dacoity are offenses under the Indian Penal Code (Sections 378-402). Punishment varies based on severity. Report such incidents to the police immediately."

/-- The English localized default `translations["English"]["no_response"]`. -/
def englishNoResponse : Str :=
  str "Sorry, I couldn\x27t find a matching response for your query."

/-- The `if/elif` keyword chain of app.py lines 165-176, ending in the
localized `no_response` default. -/
def keywordFallback (query no_response : Str) : Str :=
  if pyIn (str "ipc") query || pyIn (str "section") query then
    ipcResponse
  else if pyIn (str "lawyer") query || pyIn (str "attorney") query then
    lawyerResponse
  else if pyIn (str "court") query then
    courtResponse
  else if pyIn (str "rights") query then
    rightsResponse
  else if pyIn (str "robbery") query || pyIn (str "theft") query
      || pyIn (str "dacoity") query || pyIn (str "roberry") query then
    theftResponse
  else
    no_response

/-! ## app.py: response resolution -/

/-- The fixed instructional wrapper around the query (app.py lines
133-142, with the literal triple-quoted-string indentation). -/
def chatPrompt (query : Str) : Str :=
  str "You are a specialized legal assistant for Indian law. \n                Your task is to answer ONLY legal-related queries.\n                \n                Query: " ++ query
    ++ str "\n                \n                Instructions:\n                1. If the query is NOT related to law, crime, rights, or legal procedures, reply EXACTLY: \"I am a legal assistant. I can only help you with legal matters, laws, and rights in India.\"\n                2. If the query IS legal, provide a clear, balanced answer (4-5 sentences).\n                3. Mention key sections/acts but avoid overwhelming detail.\n                4. Always remind users to consult a lawyer."

/-- Environment of one `get_response` call.  `geminiAvailable` is the
module-level import flag; `generate` is the oracle for
`model.generate_content(prompt).text` (`error` when the call — or the
`.text` access, or `genai.configure`/`GenerativeModel` — raises);
`patterns` is the module-level pattern list; `no_response` is the
localized default for the selected language. -/
structure ChatEnv where
  geminiAvailable : Bool
  cred : CredEnv
  generate : Str → Except Str Str
  patterns : PatternsValue
  no_response : Str

/-- The body of the `try` block at app.py lines 107-152: resolve a
credential, and when it is truthy invoke the model once; a raised
exception, a falsy credential, or a whitespace-only response all yield
`none` (the source swallows the exception and falls through; with a falsy
credential or empty response the `try` block simply runs off its end). -/
def remoteAttempt (env : ChatEnv) (query : Str) : Option Str :=
  if env.geminiAvailable then
    let api_key := resolveApiKeyChat env.cred
    if pyTruthy api_key then
      match env.generate (chatPrompt query) with
      | .ok text =>
        let response := pyStrip text
        if response.isEmpty then none else some response
      | .error _ => none
    else none
  else none

/-- Return shape of `get_response`: the short-query path returns a bare
string, every other path returns a `(response, is_ai)` pair. -/
inductive ChatResult where
  | bare (text : Str)
  | tagged (text : Str) (is_ai : Bool)
deriving DecidableEq

/-- `get_response` (app.py lines 97-179), with the session transcript
`st.session_state.conversation_context` passed and returned explicitly. -/
def get_response (env : ChatEnv) (conversation_context : List Str) (query₀ : Str) :
    ChatResult × List Str :=
  let query := pyStrip (pyLower query₀)
  if query.length < 3 then
    (.bare env.no_response, conversation_context)
  else
    let ctx := conversation_context ++ [str "User: " ++ query]
    match remoteAttempt env query with
    | some response => (.tagged response true, ctx ++ [str "Assistant: " ++ response])
    | none =>
      match patternScan env.patterns query with
      | some response => (.tagged response false, ctx ++ [str "Assistant: " ++ response])
      | none =>
        let response := keywordFallback query env.no_response
        (.tagged response false, ctx ++ [str "Assistant: " ++ response])

/-! ## app.py: document analysis -/

/-- The truncation at app.py line 209:
`document_text[:4000] if len(document_text) > 4000 else document_text`. -/
def text_sample (document_text : Str) : Str :=
  if document_text.length > 4000 then document_text.take 4000 else document_text

/-- Opening section of the analysis prompt (app.py lines 212-218), up to
and excluding the interpolated document content. -/
def analysisPromptBeforeText (document_name : Str) (document_length : Nat) : Str :=
  str "You are an expert legal document analyst specializing in Indian law.\n\nDocument Name: " ++ document_name
    ++ str "\nDocument Length: " ++ str (toString document_length)
    ++ str " characters\n\nDocument Content:\n"

/-- Closing section of the analysis prompt (app.py lines 220-248), after
the interpolated document content. -/
def analysisPromptAfterText : Str :=
  str "\n\nProvide a comprehensive legal analysis in the following format:\n\n## 📋 Document Summary\n[Brief overview of what this document is about in 2-3 sentences]\n\n## 🔍 Document Type\n[Identify the type: Contract, Agreement, Notice, License, Affidavit, etc.]\n\n## ⚖️ Key Legal Terms & Clauses\n[List the 5 most important clauses, sections, or legal terms found in the document]\n\n## ⚠️ Red Flags & Concerns\n[Identify any problematic clauses, unfair terms, ambiguous language, or potential legal risks]\n\n## ✅ Positive Aspects\n[Highlight protective clauses, fair terms, or legally sound provisions]\n\n## 📊 Legal Compliance Check\n[Assess if the document appears to comply with applicable Indian laws and regulations]\n\n## 💡 Recommendations\n[Provide 3-5 specific, actionable recommendations for the document holder]\n\n## 🚨 Critical Points to Note\n[Highlight the most important things the user must be aware of]\n\n---\n**Important Disclaimer:** This is an AI-generated analysis for informational purposes only. This does NOT constitute legal advice. Please consult a qualified lawyer for professional legal advice specific to your situation.\n"

/-- The full analysis prompt (app.py lines 212-248): header with document
name and original length, then the truncated content, then the fixed
section template and disclaimer. -/
def analysisPrompt (document_name document_text : Str) : Str :=
  analysisPromptBeforeText document_name document_text.length
    ++ text_sample document_text ++ analysisPromptAfterText

/-- Environment of one `analyze_legal_document` call; `generate` is the
oracle for `model.generate_content(prompt).text`. -/
structure AnalyzeEnv where
  geminiAvailable : Bool
  cred : CredEnv
  generate : Str → Except Str Str

/-- `analyze_legal_document` (app.py lines 181-254): guard on library
availability, resolve a credential (returning the literal unavailability
message when falsy), one model round-trip, catch-all error formatting. -/
def analyze_legal_document (env : AnalyzeEnv) (document_text document_name : Str) : Str :=
  if !env.geminiAvailable then
    str "❌ AI analysis not available. Please ensure Gemini API is configured."
  else
    let api_key := resolveApiKeyAnalyze env.cred
    if !pyTruthy api_key then
      str "❌ API key not configured. Please set up GEMINI_API_KEY in secrets."
    else
      match env.generate (analysisPrompt document_name document_text) with
      | .ok text => text
      | .error e => str "❌ Analysis error: " ++ e ++ str "\n\nPlease try again or consult the error logs."

/-! ## Specification-side definitions

These definitions restate parts of the spec's wording (first-match rule
lists, newline-separated joins, per-item match results) so that the
theorems can compare the embedded source against them. -/

/-- Match result of a single pattern-list item, per the spec's wording: a
dict with both fields whose lower-cased stripped pattern is a substring of
the normalized query yields its response; every other item never
matches. -/
def itemHit (item : PatItem) (query : Str) : Option Str :=
  match item with
  | .dict (some p) (some r) => if pyIn (pyStrip (pyLower p)) query then some r else none
  | _ => none

/-- The keyword fallback as the spec describes it: an ordered list of
(predicate, response) rules. -/
def keywordRules : List ((Str → Bool) × Str) :=
  [ (fun q => pyIn (str "ipc") q || pyIn (str "section") q, ipcResponse),
    (fun q => pyIn (str "lawyer") q || pyIn (str "attorney") q, lawyerResponse),
    (fun q => pyIn (str "court") q, courtResponse),
    (fun q => pyIn (str "rights") q, rightsResponse),
    (fun q => pyIn (str "robbery") q || pyIn (str "theft") q
        || pyIn (str "dacoity") q || pyIn (str "roberry") q, theftResponse) ]

/-- First-match-wins evaluation of an ordered rule list, with a default
for when no rule fires. -/
def firstMatchWins : List ((Str → Bool) × Str) → Str → Str → Str
  | [], _, d => d
  | rule :: rest, q, d => if rule.1 q then rule.2 else firstMatchWins rest q d

/-- Concatenation of a list of strings separated (not terminated) by a
newline, as the spec words the extractor's output. -/
def joinNL : List Str → Str
  | [] => []
  | [p] => p
  | p :: rest => p ++ str "\n" ++ joinNL rest

/-! ## Concrete fixtures for witnesses and counterexamples -/

/-- Credential environment in which every source is absent: no
`st.secrets` attribute, unset environment variable, `toml.load` raises. -/
def offlineCred : CredEnv := ⟨false, none, none, .error ()⟩

/-- Chat environment with the Gemini library importable but no credential
resolvable and an empty pattern list. -/
def offlineChatEnv : ChatEnv :=
  ⟨true, offlineCred, fun _ => .error [], .list [], englishNoResponse⟩

/-- Credential environment whose secret store yields the empty (falsy)
string while the environment variable holds a key. -/
def envOnlyCred : CredEnv := ⟨true, some [], some (str "k-123"), .error ()⟩

/-- Analysis environment with the library importable but no credential
resolvable. -/
def noKeyAnalyzeEnv : AnalyzeEnv := ⟨true, offlineCred, fun _ => .ok []⟩

/-- An upload with an upper-case unrecognized MIME type. -/
def zipFile : UploadedFile := ⟨str "a.zip", str "APPLICATION/ZIP", .ok [], .ok [], .ok ()⟩

/-- An upload with a lower-case unrecognized MIME type. -/
def plainZipFile : UploadedFile :=
  ⟨str "a.zip", str "application/zip", .ok [], .ok [], .ok ()⟩

/-- An image upload which PIL fails to open. -/
def badImageFile : UploadedFile :=
  ⟨str "scan.png", str "image/png", .ok [], .ok [], .error (str "cannot identify image file")⟩

/-- A PDF upload on which every parsing library raises. -/
def corruptFile : UploadedFile :=
  ⟨str "x.pdf", str "application/pdf", .error (str "EOF marker not found"),
    .error (str "EOF marker not found"), .error (str "EOF marker not found")⟩

/-- A well-formed upload with known page and paragraph texts. -/
def samplePdfDocx : UploadedFile :=
  ⟨str "s.pdf", str "application/pdf", .ok [str "page one", str "page two "],
    .ok [str "alpha"], .ok ()⟩

/-- A pattern list holding a non-dict entry, a dict lacking a response,
and a complete rule. -/
def witnessPatterns : List PatItem :=
  [PatItem.nondict, PatItem.dict (some (str "BAIL ")) none,
   PatItem.dict (some (str " Bail")) (some (str "Bail is governed by CrPC."))]

/-! ## Theorems -/

theorem text_sample_eq_take (t : Str) : text_sample t = t.take 4000 := by
  unfold text_sample
  split
  · rfl
  · exact (List.take_of_length_le (by omega)).symm

/-- C2 is corrected by this counterexample: on the two-character query
"hi" the resolver returns the bare localized default and leaves the
transcript untouched — no user turn and no assistant turn is appended,
contrary to the claim's "still appends the user turn and the assistant
turn". -/
theorem claim_C2_cex :
    (get_response offlineChatEnv [] (str "hi")).2 = [] ∧
    (get_response offlineChatEnv [] (str "hi")).1 = ChatResult.bare englishNoResponse := by
  decide

/-- C2 (amended): for every query whose normalized (lower-cased, trimmed)
length is less than 3, resolution returns the localized "no match" default
without consulting the remote provider, the pattern store, or the keyword
rules, and appends nothing to the conversation transcript, which is
returned unchanged. -/
theorem claim_C2 (env : ChatEnv) (ctx : List Str) (q : Str)
    (h : (pyStrip (pyLower q)).length < 3) :
    get_response env ctx q = (ChatResult.bare env.no_response, ctx) := by
  simp [get_response, h]

/-- Witness for C2 at the one-character query " a ". -/
theorem claim_C2_witness :
    (pyStrip (pyLower (str " a "))).length < 3 ∧
    get_response offlineChatEnv [str "x"] (str " a ")
      = (ChatResult.bare englishNoResponse, [str "x"]) :=
  ⟨by decide, claim_C2 offlineChatEnv [str "x"] (str " a ") (by decide)⟩

/-- C3: for every input text, document analysis submits at most the first
4000 characters: the sampled text is always the 4000-character take, it
never exceeds 4000 characters, it is the full text when the text fits, it
is exactly the 4000-character prefix when the text is longer, and the
prompt sent to the provider contains the sampled text (and only it, by
construction of `analysisPrompt`). -/
theorem claim_C3 (document_text document_name : Str) :
    text_sample document_text = document_text.take 4000 ∧
    (text_sample document_text).length ≤ 4000 ∧
    (document_text.length ≤ 4000 → text_sample document_text = document_text) ∧
    (4000 < document_text.length → (text_sample document_text).length = 4000) ∧
    text_sample document_text <:+: analysisPrompt document_name document_text := by
  refine ⟨text_sample_eq_take _, ?_, ?_, ?_, ?_⟩
  · rw [text_sample_eq_take, List.length_take]
    omega
  · intro h
    rw [text_sample_eq_take]
    exact List.take_of_length_le h
  · intro h
    rw [text_sample_eq_take, List.length_take]
    omega
  · exact ⟨analysisPromptBeforeText document_name document_text.length,
      analysisPromptAfterText, rfl⟩

/-- Witness for C3 on a 4001-character document: the sample has exactly
4000 characters. -/
theorem claim_C3_witness :
    4000 < (List.replicate 4001 'a').length ∧
    (text_sample (List.replicate 4001 'a')).length = 4000 :=
  ⟨by rw [List.length_replicate]; omega,
   (claim_C3 (List.replicate 4001 'a') (str "d")).2.2.2.1 (by rw [List.length_replicate]; omega)⟩

/-- C10: the resolver's return shape is inconsistent: a query of
normalized length below 3 yields the bare localized default, a query of
normalized length at least 3 yields a (text, is-ai) pair, and the two
shapes are distinct — a caller unpacking two values fails on the first. -/
theorem claim_C10 (env : ChatEnv) (ctx : List Str) (q : Str) :
    ((pyStrip (pyLower q)).length < 3 →
      (get_response env ctx q).1 = ChatResult.bare env.no_response) ∧
    (3 ≤ (pyStrip (pyLower q)).length →
      ∃ t b, (get_response env ctx q).1 = ChatResult.tagged t b) ∧
    (∀ s t b, ChatResult.bare s ≠ ChatResult.tagged t b) := by
  refine ⟨fun h => by simp [get_response, h], fun h => ?_, fun s t b => by simp⟩
  have h' : ¬ (pyStrip (pyLower q)).length < 3 := by omega
  simp only [get_response]
  rw [if_neg h']
  rcases hr : remoteAttempt env (pyStrip (pyLower q)) with _ | r
  · rcases hp : patternScan env.patterns (pyStrip (pyLower q)) with _ | p
    · simp only [hr, hp]
      exact ⟨_, _, rfl⟩
    · simp only [hr, hp]
      exact ⟨_, _, rfl⟩
  · simp only [hr]
    exact ⟨_, _, rfl⟩

/-- Witness for C10: both shapes realized on the same environment. -/
theorem claim_C10_witness :
    (get_response offlineChatEnv [] (str "hi")).1 = ChatResult.bare englishNoResponse ∧
    ∃ t b, (get_response offlineChatEnv [] (str "court")).1 = ChatResult.tagged t b :=
  ⟨(claim_C10 offlineChatEnv [] (str "hi")).1 (by decide),
   (claim_C10 offlineChatEnv [] (str "court")).2.1 (by decide)⟩

/-- C1: for every query of normalized length at least 3, resolution
attempts the remote provider first: a non-empty remote text is returned
with the is-AI flag true, and a failed remote attempt (missing credential,
model error, empty response — all the `none` cases of `remoteAttempt`,
which models the source's swallowing `try/except`) falls through to the
pattern store, then the keyword fallback, then the localized default, with
the is-AI flag false.  `get_response` is a total function, so no remote
failure reaches the caller as an exception. -/
theorem claim_C1 (env : ChatEnv) (ctx : List Str) (q : Str)
    (h : 3 ≤ (pyStrip (pyLower q)).length) :
    (∀ r, remoteAttempt env (pyStrip (pyLower q)) = some r →
      (get_response env ctx q).1 = ChatResult.tagged r true) ∧
    (remoteAttempt env (pyStrip (pyLower q)) = none →
      (get_response env ctx q).1 =
        ChatResult.tagged
          ((patternScan env.patterns (pyStrip (pyLower q))).getD
            (keywordFallback (pyStrip (pyLower q)) env.no_response)) false) := by
  have h' : ¬ (pyStrip (pyLower q)).length < 3 := by omega
  constructor
  · intro r hr
    simp only [get_response]
    rw [if_neg h']
    simp [hr]
  · intro hn
    simp only [get_response]
    rw [if_neg h']
    rcases hp : patternScan env.patterns (pyStrip (pyLower q)) with _ | p <;>
      simp [hn, hp]

/-- Witness for C1: with no resolvable credential the remote attempt
fails and "court" resolves through the keyword fallback, flagged non-AI. -/
theorem claim_C1_witness :
    3 ≤ (pyStrip (pyLower (str "court"))).length ∧
    remoteAttempt offlineChatEnv (pyStrip (pyLower (str "court"))) = none ∧
    (get_response offlineChatEnv [] (str "court")).1 = ChatResult.tagged courtResponse false :=
  ⟨by decide, rfl, (claim_C1 offlineChatEnv [] (str "court") (by decide)).2 rfl⟩

theorem patternScan_eq_loop (items : List PatItem) (q : Str) :
    patternScan (.list items) q = patternLoop items q := by
  cases items <;> simp [patternScan, patternLoop]

theorem patternLoop_cons (item : PatItem) (rest : List PatItem) (q : Str) :
    patternLoop (item :: rest) q =
      match itemHit item q with
      | some r => some r
      | none => patternLoop rest q := by
  cases item with
  | nondict => simp [patternLoop, itemHit]
  | dict op oresp =>
    cases op with
    | none => simp [patternLoop, itemHit]
    | some p =>
      cases oresp with
      | none => simp [patternLoop, itemHit]
      | some r =>
        simp only [patternLoop, itemHit]
        split <;> rfl

theorem patternLoop_eq_some_iff (items : List PatItem) (q r : Str) :
    patternLoop items q = some r ↔
      ∃ pre item post, items = pre ++ item :: post ∧
        itemHit item q = some r ∧ ∀ it ∈ pre, itemHit it q = none := by
  induction items with
  | nil =>
    constructor
    · intro h
      simp [patternLoop] at h
    · rintro ⟨pre, item, post, habs, -, -⟩
      exact absurd habs (by simp)
  | cons a rest ih =>
    rw [patternLoop_cons]
    rcases ha : itemHit a q with _ | x
    · constructor
      · intro h
        obtain ⟨pre, item, post, heq, hhit, hpre⟩ := ih.mp h
        refine ⟨a :: pre, item, post, by rw [heq, List.cons_append], hhit, ?_⟩
        intro it hit
        rcases List.mem_cons.mp hit with hh | ht
        · rw [hh]; exact ha
        · exact hpre it ht
      · rintro ⟨pre, item, post, heq, hhit, hpre⟩
        cases pre with
        | nil =>
          rw [List.nil_append] at heq
          obtain ⟨h1, h2⟩ := List.cons.inj heq
          simp [← h1, ha] at hhit
        | cons b pre' =>
          rw [List.cons_append] at heq
          obtain ⟨h1, h2⟩ := List.cons.inj heq
          exact ih.mpr ⟨pre', item, post, h2, hhit,
            fun it hit => hpre it (by simp [hit])⟩
    · constructor
      · intro h
        have hxr : x = r := Option.some.inj h
        exact ⟨[], a, rest, rfl, by rw [ha, hxr], by simp⟩
      · rintro ⟨pre, item, post, heq, hhit, hpre⟩
        cases pre with
        | nil =>
          rw [List.nil_append] at heq
          obtain ⟨h1, h2⟩ := List.cons.inj heq
          rw [← h1, ha] at hhit
          exact hhit
        | cons b pre' =>
          rw [List.cons_append] at heq
          obtain ⟨h1, h2⟩ := List.cons.inj heq
          have hb : itemHit a q = none := by
            rw [h1]; exact hpre b (by simp)
          rw [ha] at hb
          exact absurd hb (by simp)

/-- C4: pattern store matching.  A scan over a loaded list returns `r`
exactly when the list splits as `pre ++ item :: post` with `item` a dict
carrying both fields whose lower-cased trimmed pattern is a substring of
the normalized query yielding `r`, while every earlier entry fails to
match; and entries that are not dicts or lack either field never match
(they are skipped silently). -/
theorem claim_C4 (items : List PatItem) (q r : Str) :
    (patternScan (.list items) q = some r ↔
      ∃ pre item post, items = pre ++ item :: post ∧
        itemHit item q = some r ∧ ∀ it ∈ pre, itemHit it q = none) ∧
    (∀ p, itemHit (PatItem.dict p none) q = none) ∧
    (∀ resp, itemHit (PatItem.dict none resp) q = none) ∧
    itemHit PatItem.nondict q = none := by
  refine ⟨?_, ?_, ?_, rfl⟩
  · rw [patternScan_eq_loop]
    exact patternLoop_eq_some_iff items q r
  · intro p
    cases p <;> rfl
  · intro resp
    rfl

/-- Witness for C4: the complete third rule matches (case-insensitively,
after trimming) while the non-dict entry and the response-less dict are
skipped. -/
theorem claim_C4_witness :
    patternScan (.list witnessPatterns) (str "bail process")
      = some (str "Bail is governed by CrPC.") :=
  (claim_C4 witnessPatterns (str "bail process") (str "Bail is governed by CrPC.")).1.mpr
    ⟨[PatItem.nondict, PatItem.dict (some (str "BAIL ")) none],
     PatItem.dict (some (str " Bail")) (some (str "Bail is governed by CrPC.")), [],
     rfl, by decide, by decide⟩

/-- C5 is corrected by this counterexample: the query
"section 378 lawyer court" contains both "lawyer" and "court", yet it
resolves to the IPC rule's response (the "ipc"/"section" rule fires
first), not the lawyer rule's response. -/
theorem claim_C5_cex :
    pyIn (str "lawyer") (str "section 378 lawyer court") = true ∧
    pyIn (str "court") (str "section 378 lawyer court") = true ∧
    keywordFallback (str "section 378 lawyer court") englishNoResponse = ipcResponse ∧
    ipcResponse ≠ lawyerResponse := by
  decide

/-- C5 (amended): the keyword fallback is the first-match-wins evaluation
of the fixed ordered rule list ("ipc"/"section", then "lawyer"/"attorney",
then "court", then "rights", then "robbery"/"theft"/"dacoity"/"roberry");
in particular a query containing both "lawyer" and "court" but neither
"ipc" nor "section" resolves to the lawyer-rule response. -/
theorem claim_C5 (q d : Str) :
    keywordFallback q d = firstMatchWins keywordRules q d ∧
    (pyIn (str "lawyer") q = true → pyIn (str "court") q = true →
      pyIn (str "ipc") q = false → pyIn (str "section") q = false →
      keywordFallback q d = lawyerResponse) := by
  constructor
  · rfl
  · intro h1 h2 h3 h4
    simp [keywordFallback, h1, h3, h4]

/-- Witness for C5 on "my lawyer took it to court". -/
theorem claim_C5_witness :
    keywordFallback (str "my lawyer took it to court") englishNoResponse = lawyerResponse :=
  (claim_C5 (str "my lawyer took it to court") englishNoResponse).2
    (by decide) (by decide) (by decide) (by decide)

/-- C6 is corrected by this counterexample: for the declared MIME type
"APPLICATION/ZIP" the result embeds the lower-cased type, so it does not
contain the literal declared type. -/
theorem claim_C6_cex :
    process_document zipFile = str "Unsupported file type: application/zip" ∧
    pyIn (str "APPLICATION/ZIP") (process_document zipFile) = false ∧
    pyIn (str "Unsupported") (process_document zipFile) = true := by
  decide

/-- C6 (amended): extraction dispatches on the lower-cased declared MIME
type with filename fallbacks — "pdf" to the PDF path; "word"/"document" or
a name ending ".docx" to the DOCX path; "image" or an image extension to
the image path, which returns the fixed placeholder whenever the image
opens; anything else yields a string containing the lower-cased declared
type and an "Unsupported" marker.  `process_document` is total, so no
input raises. -/
theorem claim_C6 (f : UploadedFile) :
    (pyIn (str "pdf") (pyLower f.type) = true →
      process_document f = extract_text_from_pdf f) ∧
    (pyIn (str "pdf") (pyLower f.type) = false →
      (pyIn (str "word") (pyLower f.type) || pyIn (str "document") (pyLower f.type)
        || pyEndsWith (str ".docx") f.name) = true →
      process_document f = extract_text_from_docx f) ∧
    (pyIn (str "pdf") (pyLower f.type) = false →
      (pyIn (str "word") (pyLower f.type) || pyIn (str "document") (pyLower f.type)
        || pyEndsWith (str ".docx") f.name) = false →
      (pyIn (str "image") (pyLower f.type) || pyEndsWith (str ".png") (pyLower f.name)
        || pyEndsWith (str ".jpg") (pyLower f.name)
        || pyEndsWith (str ".jpeg") (pyLower f.name)) = true →
      f.imageOpen = Except.ok () →
      process_document f
        = str "Image OCR not yet implemented. Please upload PDF or DOCX files for now.") ∧
    (pyIn (str "pdf") (pyLower f.type) = false →
      (pyIn (str "word") (pyLower f.type) || pyIn (str "document") (pyLower f.type)
        || pyEndsWith (str ".docx") f.name) = false →
      (pyIn (str "image") (pyLower f.type) || pyEndsWith (str ".png") (pyLower f.name)
        || pyEndsWith (str ".jpg") (pyLower f.name)
        || pyEndsWith (str ".jpeg") (pyLower f.name)) = false →
      process_document f = str "Unsupported file type: " ++ pyLower f.type ∧
      pyIn (str "Unsupported") (process_document f) = true ∧
      pyIn (pyLower f.type) (process_document f) = true) := by
  refine ⟨?_, ?_, ?_, ?_⟩
  · intro h1
    simp [process_document, h1]
  · intro h1 h2
    simp [process_document, h1, h2]
  · intro h1 h2 h3 h4
    simp [process_document, h1, h2, h3, extract_text_from_image, h4]
  · intro h1 h2 h3
    have hpd : process_document f = str "Unsupported file type: " ++ pyLower f.type := by
      simp [process_document, h1, h2, h3]
    refine ⟨hpd, ?_, ?_⟩
    · rw [hpd]
      refine decide_eq_true (List.IsPrefix.isInfix
        ⟨str " file type: " ++ pyLower f.type, ?_⟩)
      rw [← List.append_assoc]
      have hu : str "Unsupported" ++ str " file type: " = str "Unsupported file type: " := by
        decide
      rw [hu]
    · rw [hpd]
      exact decide_eq_true (List.IsSuffix.isInfix (List.suffix_append _ _))

/-- Witness for C6 on an unrecognized lower-case MIME type. -/
theorem claim_C6_witness :
    process_document plainZipFile = str "Unsupported file type: " ++ pyLower plainZipFile.type ∧
    pyIn (str "Unsupported") (process_document plainZipFile) = true ∧
    pyIn (pyLower plainZipFile.type) (process_document plainZipFile) = true :=
  (claim_C6 plainZipFile).2.2.2 (by decide) (by decide) (by decide)

theorem foldl_append_nl (ps : List Str) (acc : Str) :
    ps.foldl (fun t p => t ++ p ++ str "\n") acc
      = acc ++ ps.foldl (fun t p => t ++ p ++ str "\n") [] := by
  induction ps generalizing acc with
  | nil => simp
  | cons p rest ih =>
    rw [List.foldl_cons, List.foldl_cons, ih, ih (([] : Str) ++ p ++ str "\n")]
    simp [List.append_assoc]

theorem foldl_nl_eq_joinNL (ps : List Str) (hne : ps ≠ []) :
    ps.foldl (fun t p => t ++ p ++ str "\n") [] = joinNL ps ++ str "\n" := by
  induction ps with
  | nil => exact absurd rfl hne
  | cons p rest ih =>
    cases rest with
    | nil => simp [joinNL]
    | cons q rest' =>
      rw [List.foldl_cons, foldl_append_nl, ih (by simp)]
      simp [joinNL, List.append_assoc]

theorem pyStripRight_append_nl (x : Str) :
    pyStripRight (x ++ str "\n") = pyStripRight x := by
  have h : isPySpace '\n' = true := by decide
  simp [pyStripRight, str, List.reverse_append, List.dropWhile_cons, h]

theorem pyStrip_foldl_eq_joinNL (ps : List Str) :
    pyStrip (ps.foldl (fun t p => t ++ p ++ str "\n") []) = pyStrip (joinNL ps) := by
  cases ps with
  | nil => rfl
  | cons p rest =>
    rw [foldl_nl_eq_joinNL _ (by simp)]
    unfold pyStrip
    rw [pyStripRight_append_nl]

/-- C7: on a successfully parsed document, PDF extraction returns the
page texts joined in page order with newline separators, and DOCX
extraction returns the paragraph texts joined in document order with
newline separators, each with surrounding whitespace of the final result
trimmed. -/
theorem claim_C7 (f : UploadedFile) :
    (∀ pages, f.pdfParse = Except.ok pages →
      extract_text_from_pdf f = pyStrip (joinNL pages)) ∧
    (∀ paras, f.docxParse = Except.ok paras →
      extract_text_from_docx f = pyStrip (joinNL paras)) := by
  constructor
  · intro pages hp
    unfold extract_text_from_pdf
    rw [hp]
    exact pyStrip_foldl_eq_joinNL pages
  · intro paras hp
    unfold extract_text_from_docx
    rw [hp]
    exact pyStrip_foldl_eq_joinNL paras

/-- Witness for C7 on a two-page PDF and a one-paragraph DOCX. -/
theorem claim_C7_witness :
    extract_text_from_pdf samplePdfDocx
      = pyStrip (joinNL [str "page one", str "page two "]) ∧
    extract_text_from_docx samplePdfDocx = pyStrip (joinNL [str "alpha"]) :=
  ⟨(claim_C7 samplePdfDocx).1 _ rfl, (claim_C7 samplePdfDocx).2 _ rfl⟩

/-- C8 is corrected by this counterexample: an image-path failure is
reported as "Error processing image: ...", which does not carry the
claimed "Error extracting <FORMAT>: " marker. -/
theorem claim_C8_cex :
    process_document badImageFile
      = str "Error processing image: cannot identify image file" ∧
    pyIn (str "Error extracting") (process_document badImageFile) = false := by
  decide

/-- C8 (amended): extraction never raises past the boundary (the
extractors are total functions); a PDF failure yields
"Error extracting PDF: " followed by the exception text, a DOCX failure
yields "Error extracting DOCX: " likewise, and an image failure — unlike
the claimed format — yields "Error processing image: " followed by the
exception text. -/
theorem claim_C8 (f : UploadedFile) (e : Str) :
    (f.pdfParse = Except.error e →
      extract_text_from_pdf f = str "Error extracting PDF: " ++ e) ∧
    (f.docxParse = Except.error e →
      extract_text_from_docx f = str "Error extracting DOCX: " ++ e) ∧
    (f.imageOpen = Except.error e →
      extract_text_from_image f = str "Error processing image: " ++ e) := by
  refine ⟨fun h => ?_, fun h => ?_, fun h => ?_⟩
  · unfold extract_text_from_pdf
    rw [h]
  · unfold extract_text_from_docx
    rw [h]
  · unfold extract_text_from_image
    rw [h]

/-- Witness for C8 on a document every parser rejects. -/
theorem claim_C8_witness :
    extract_text_from_pdf corruptFile = str "Error extracting PDF: EOF marker not found" ∧
    extract_text_from_docx corruptFile = str "Error extracting DOCX: EOF marker not found" ∧
    extract_text_from_image corruptFile
      = str "Error processing image: EOF marker not found" :=
  ⟨(claim_C8 corruptFile (str "EOF marker not found")).1 rfl,
   (claim_C8 corruptFile (str "EOF marker not found")).2.1 rfl,
   (claim_C8 corruptFile (str "EOF marker not found")).2.2 rfl⟩

/-- C9: the chat flow and the analysis flow run the same credential
chain — secret store, then environment variable, then config file — each
later source consulted only when the value so far is falsy (absent or
empty), stopping at the first truthy value; and when the whole chain
yields nothing the analysis flow returns the literal unavailability
message instead of raising (`analyze_legal_document` is total). -/
theorem claim_C9 :
    (∀ env : CredEnv, resolveApiKeyChat env = resolveApiKeyAnalyze env) ∧
    (∀ env : CredEnv, env.hasSecretsAttr = true → pyTruthy env.secretsGet = true →
      resolveApiKeyChat env = env.secretsGet) ∧
    (∀ env : CredEnv,
      pyTruthy (if env.hasSecretsAttr then env.secretsGet else none) = false →
      pyTruthy env.envGet = true →
      resolveApiKeyChat env = env.envGet) ∧
    (∀ env : CredEnv,
      pyTruthy (if env.hasSecretsAttr then env.secretsGet else none) = false →
      pyTruthy env.envGet = false →
      resolveApiKeyChat env
        = (match env.tomlLoad with | .ok v => v | .error _ => env.envGet)) ∧
    (∀ (env : AnalyzeEnv) (t n : Str),
      env.geminiAvailable = true →
      pyTruthy (resolveApiKeyAnalyze env.cred) = false →
      analyze_legal_document env t n
        = str "❌ API key not configured. Please set up GEMINI_API_KEY in secrets.") := by
  refine ⟨fun env => rfl, ?_, ?_, ?_, ?_⟩
  · intro env h1 h2
    simp [resolveApiKeyChat, h1, h2]
  · intro env h1 h2
    simp [resolveApiKeyChat, h1, h2]
  · intro env h1 h2
    simp [resolveApiKeyChat, h1, h2]
  · intro env t n h1 h2
    simp [analyze_legal_document, h1, h2]

/-- Witness for C9: a falsy (empty) secret falls through to the
environment variable, and with no source available the analysis flow
returns the unavailability message. -/
theorem claim_C9_witness :
    resolveApiKeyChat envOnlyCred = some (str "k-123") ∧
    analyze_legal_document noKeyAnalyzeEnv (str "text") (str "doc.pdf")
      = str "❌ API key not configured. Please set up GEMINI_API_KEY in secrets." :=
  ⟨claim_C9.2.2.1 envOnlyCred (by decide) (by decide),
   claim_C9.2.2.2.2 noKeyAnalyzeEnv (str "text") (str "doc.pdf") rfl (by decide)⟩
